import Mathlib

/-!
Verification of the SignifyLearn backend (src/main.py, src/schemas.py).

The handlers are embedded as pure Lean functions over an explicit `Store`
value holding one list of documents per MongoDB collection.  Documents are
typed records whose fields are `Option`-valued where a stored document may
lack the field (MongoDB upserts build documents from the filter plus the
update operators only, so pydantic schema defaults are not implied).
Floats (`font_scale`, `os.times().elapsed`) are embedded as `Rat`: the code
only stores and compares them, no float rounding is exercised.
-/

namespace SignifyLearn

/-- Python truthiness of an `Optional[str]` value: `None` and the empty
string are falsy, any non-empty string is truthy (used by the guards
`if q:`, `if payload.favorite_gesture_slug:` etc. in main.py). -/
def truthyStr : Option String → Bool
  | some s => decide (s ≠ "")
  | none => false

/-- Document of the `gesture` collection (schemas.py `Gesture`); the seed
routine is the only writer and always supplies every field, so fields with
pydantic defaults are plain here.  `category` and `difficulty` are Literal
enums in the schema, embedded as strings. -/
structure GestureDoc where
  name : String
  slug : String
  category : String
  difficulty : String
  thumbnail : Option String
  video_url : Option String
  steps : List String
  examples : List String
  tags : List String
deriving DecidableEq

/-- Document of the `module` collection (schemas.py `Module`). -/
structure ModuleDoc where
  title : String
  slug : String
  description : Option String
  cover_image : Option String
  subtopics : List String
  gesture_slugs : List String
deriving DecidableEq

/-- Question record inside a Quiz (schemas.py `QuizQuestion`). -/
structure QuizQuestionDoc where
  prompt : String
  media_url : Option String
  options : List String
  answer_index : Nat
deriving DecidableEq

/-- Document of the `quiz` collection (schemas.py `Quiz`). -/
structure QuizDoc where
  title : String
  slug : String
  questions : List QuizQuestionDoc
  related_module_slug : Option String
deriving DecidableEq

/-- Document of the `profile` collection.  Every field except the filter
key `user_id` is `Option`-valued: `update_profile` upserts with
`update_one(..., upsert=True)`, and a MongoDB upsert materialises only the
filter equality fields plus whatever the update operators write, so stored
profile documents can lack any of these fields.  `updated_at` is doubly
optional: the outer `Option` is field presence, the inner one is the JSON
value (the handler may write an explicit null). -/
structure ProfileDoc where
  user_id : String
  name : Option String
  email : Option String
  avatar_url : Option String
  points : Option Int
  level : Option Int
  streak_days : Option Int
  favorite_gesture_slugs : Option (List String)
  completed_module_slugs : Option (List String)
  updated_at : Option (Option Rat)
deriving DecidableEq

/-- Document of the `accessibility` collection; `Option`-valued for the
same upsert reason as `ProfileDoc`. -/
structure AccessibilityDoc where
  user_id : String
  dark_mode : Option Bool
  high_contrast : Option Bool
  font_scale : Option Rat
  reduce_motion : Option Bool
deriving DecidableEq

/-- The whole database: one list per collection, in the store's natural
(insertion) order. -/
structure Store where
  gesture : List GestureDoc
  module : List ModuleDoc
  quiz : List QuizDoc
  profile : List ProfileDoc
  accessibility : List AccessibilityDoc
deriving DecidableEq

/-- Full profile document produced by instantiating the pydantic `Profile`
model (schemas.py lines 51-61): explicit `user_id`/`name`/`email`, all
schema defaults filled in.  `Profile` has no `updated_at` field, so an
inserted model document lacks it. -/
def profileModel (user_id name email : String) : ProfileDoc where
  user_id := user_id
  name := some name
  email := some email
  avatar_url := none
  points := some 0
  level := some 1
  streak_days := some 0
  favorite_gesture_slugs := some []
  completed_module_slugs := some []
  updated_at := none

/-- Full accessibility document produced by instantiating the pydantic
`Accessibility` model (schemas.py lines 64-70) with defaults. -/
def accessibilityModel (user_id : String) : AccessibilityDoc where
  user_id := user_id
  dark_mode := some false
  high_contrast := some false
  font_scale := some 1
  reduce_motion := some false

/-- Range constraint schemas.py line 69 declares on
`Accessibility.font_scale`: `Field(1.0, ge=0.85, le=1.6)`. -/
def accessibilityFontScaleInRange (fs : Rat) : Bool :=
  (85/100 : Rat) ≤ fs && fs ≤ (16/10 : Rat)

/-- Constraint the `AccessibilityUpdate` request model (main.py lines
194-198) imposes on `font_scale`: the field is declared a plain
`Optional[float]` with no `ge`/`le` bound, so pydantic validation accepts
every float. -/
def accessibilityUpdateFontScaleOk (_fs : Rat) : Bool := true

/-- MongoDB `find_one` on a collection with filter on the user id:
first document in natural order whose `user_id` equals the key. -/
def findOneProfile : List ProfileDoc → String → Option ProfileDoc
  | [], _ => none
  | d :: rest, uid => if d.user_id == uid then some d else findOneProfile rest uid

/-- MongoDB `find_one` on the accessibility collection by `user_id`. -/
def findOneAccessibility : List AccessibilityDoc → String → Option AccessibilityDoc
  | [], _ => none
  | d :: rest, uid => if d.user_id == uid then some d else findOneAccessibility rest uid

/-- Modelled from the spec: `create_document` lives in database.py (the
persistence gateway), which is not under src/; per the spec the gateway
exposes a plain per-collection insert, so inserting appends the given
document to the collection. -/
def create_document {α : Type} (l : List α) (d : α) : List α := l ++ [d]

/-! ### Gesture listing (main.py lines 68-92)

The text filter main.py builds is a MongoDB `$regex` with option `i`:
the query string is interpreted as a PCRE regular expression matched
case-insensitively and unanchored, not as a literal substring.  The
engine below covers the PCRE fragment the development needs: a pattern
character matches literally (ignoring ASCII case) except `.`, which
matches any character.  This is faithful to PCRE for patterns made of
`.` and non-metacharacter literals; every theorem below restricts its
query to that fragment. -/

/-- Match of one pattern character against one subject character under
the `i` option: `.` matches anything, otherwise compare ignoring case. -/
def rexCharMatches (p c : Char) : Bool := p == '.' || p.toLower == c.toLower

/-- Match of the whole pattern against a prefix of the subject. -/
def rexPrefixMatches : List Char → List Char → Bool
  | [], _ => true
  | _ :: _, [] => false
  | p :: ps, c :: cs => rexCharMatches p c && rexPrefixMatches ps cs

/-- Unanchored search: the pattern matches at some position of the subject. -/
def rexSearch (pat : List Char) : List Char → Bool
  | [] => rexPrefixMatches pat []
  | c :: cs => rexPrefixMatches pat (c :: cs) || rexSearch pat cs

/-- Case-insensitive unanchored regular-expression search on strings,
the semantics of a MongoDB field condition
`\x7b"$regex": pat, "$options": "i"\x7d`. -/
def regexSearchI (pat s : String) : Bool := rexSearch pat.toList s.toList

/-- Evaluation of the text clause of the filter built in main.py lines
79-83: present only when `q` is truthy, and then an `$or` of a regex
condition on `name` and one on the array field `tags` (an array field
matches when some element matches). -/
def qMatches : Option String → GestureDoc → Bool
  | some s, g =>
    if s = "" then true
    else regexSearchI s g.name || g.tags.any (fun t => regexSearchI s t)
  | none, _ => true

/-- Evaluation of the `category` equality clause (main.py lines 84-85),
added only when the parameter is truthy. -/
def categoryMatches : Option String → GestureDoc → Bool
  | some s, g => if s = "" then true else g.category == s
  | none, _ => true

/-- Evaluation of the `difficulty` equality clause (main.py lines 86-87). -/
def difficultyMatches : Option String → GestureDoc → Bool
  | some s, g => if s = "" then true else g.difficulty == s
  | none, _ => true

/-- The whole filter document of `list_gestures`: all present clauses
combine with logical AND. -/
def gestureFilter (q category difficulty : Option String) (g : GestureDoc) : Bool :=
  qMatches q g && categoryMatches category g && difficultyMatches difficulty g

/-- Response shape of `GET /api/gestures`. -/
structure GesturePage where
  items : List GestureDoc
  total : Nat
  page : Int
  limit : Int
deriving DecidableEq

/-- Embedding of `list_gestures` (main.py lines 68-92) with an available
store: `total` counts all matching documents, `items` skips
`(page-1)*limit` of them in natural order and returns up to `limit`.
Cursor `skip`/`limit` are embedded as `drop`/`take` on clamped naturals,
which agrees with MongoDB for `page ≥ 1` and `limit ≥ 1` — the only
regime the theorems below quantify over (MongoDB errors on a negative
skip and treats `limit(0)` as unlimited). -/
def list_gestures (st : Store) (q category difficulty : Option String)
    (page limit : Int) : GesturePage where
  items := ((st.gesture.filter (gestureFilter q category difficulty)).drop
      ((page - 1) * limit).toNat).take limit.toNat
  total := (st.gesture.filter (gestureFilter q category difficulty)).length
  page := page
  limit := limit

/-! ### Profile read and upsert (main.py lines 135-178) -/

/-- Request body of `POST /api/profile/\x7buser_id\x7d` (main.py
`ProfileUpdate`, lines 135-140), with pydantic defaults. -/
structure ProfileUpdatePayload where
  name : Option String := none
  avatar_url : Option String := none
  favorite_gesture_slug : Option String := none
  remove_favorite : Bool := false
  completed_module_slug : Option String := none
deriving DecidableEq

/-- The value main.py line 160 computes for `updated_at`:
`os.times().elapsed if hasattr(os, 'times') else None`.  Whether
`os.times` exists and what elapsed value it reports are facts about the
runtime, passed in as parameters; `hasattr(os, 'times')` is `True` on
every platform CPython supports. -/
def osTimesVal (osHasTimes : Bool) (elapsed : Rat) : Option Rat :=
  if osHasTimes then some elapsed else none

/-- The MongoDB update document `update_profile` builds (main.py lines
160-174): `$set` always carries `updated_at` and carries `name` /
`avatar_url` when the payload supplies them; a truthy
`favorite_gesture_slug` goes to `$pull` or `$addToSet` on
`favorite_gesture_slugs` depending on `remove_favorite`; a truthy
`completed_module_slug` goes to `$addToSet` on `completed_module_slugs`. -/
structure ProfileUpdateDoc where
  set_updated_at : Option Rat
  set_name : Option String
  set_avatar_url : Option String
  add_favorite : Option String
  pull_favorite : Option String
  add_completed : Option String
deriving DecidableEq

/-- Construction of the update document, mirroring main.py lines 160-174
guard by guard (the slug guards test Python truthiness, so the empty
string behaves like absence). -/
def buildProfileUpdate (p : ProfileUpdatePayload) (t : Option Rat) : ProfileUpdateDoc where
  set_updated_at := t
  set_name := p.name
  set_avatar_url := p.avatar_url
  add_favorite :=
    if truthyStr p.favorite_gesture_slug && !p.remove_favorite then p.favorite_gesture_slug else none
  pull_favorite :=
    if truthyStr p.favorite_gesture_slug && p.remove_favorite then p.favorite_gesture_slug else none
  add_completed :=
    if truthyStr p.completed_module_slug then p.completed_module_slug else none

/-- MongoDB `$addToSet` on an array field: creates a one-element array
when the field is absent, appends when the value is not already present,
leaves the array unchanged otherwise. -/
def mongoAddToSet (field : Option (List String)) : Option String → Option (List String)
  | none => field
  | some x =>
    match field with
    | none => some [x]
    | some l => if x ∈ l then some l else some (l ++ [x])

/-- MongoDB `$pull` of an exact value: removes every occurrence from the
array; a no-op when the field is absent. -/
def mongoPull (field : Option (List String)) : Option String → Option (List String)
  | none => field
  | some x =>
    match field with
    | none => none
    | some l => some (l.filter (fun y => y ≠ x))

/-- Application of the update document to one profile document.
`add_favorite` and `pull_favorite` come from mutually exclusive branches
of main.py lines 168-171, so at most one of them is present and the
order of application is immaterial. -/
def applyProfileUpdate (d : ProfileDoc) (u : ProfileUpdateDoc) : ProfileDoc where
  user_id := d.user_id
  name := match u.set_name with | some v => some v | none => d.name
  email := d.email
  avatar_url := match u.set_avatar_url with | some v => some v | none => d.avatar_url
  points := d.points
  level := d.level
  streak_days := d.streak_days
  favorite_gesture_slugs :=
    mongoPull (mongoAddToSet d.favorite_gesture_slugs u.add_favorite) u.pull_favorite
  completed_module_slugs := mongoAddToSet d.completed_module_slugs u.add_completed
  updated_at := some u.set_updated_at

/-- The document a MongoDB upsert starts from when no document matches:
the equality fields of the filter `\x7b"user_id": user_id\x7d` only —
schema defaults play no part. -/
def emptyProfileDoc (uid : String) : ProfileDoc where
  user_id := uid
  name := none
  email := none
  avatar_url := none
  points := none
  level := none
  streak_days := none
  favorite_gesture_slugs := none
  completed_module_slugs := none
  updated_at := none

/-- MongoDB `update_one(\x7b"user_id": uid\x7d, u, upsert=True)` on the
profile collection: apply the update to the first matching document, or
insert the update applied to the filter-derived document when none
matches. -/
def updateOneProfile : List ProfileDoc → String → ProfileUpdateDoc → List ProfileDoc
  | [], uid, u => [applyProfileUpdate (emptyProfileDoc uid) u]
  | d :: rest, uid, u =>
    if d.user_id == uid then applyProfileUpdate d u :: rest
    else d :: updateOneProfile rest uid u

/-- Embedding of `update_profile` (main.py lines 156-178) with an
available store: build the update document, upsert, then re-read and
return the document for `user_id`. -/
def update_profile (st : Store) (uid : String) (p : ProfileUpdatePayload)
    (osHasTimes : Bool) (elapsed : Rat) : Store × Option ProfileDoc :=
  let u := buildProfileUpdate p (osTimesVal osHasTimes elapsed)
  let st' := { st with profile := updateOneProfile st.profile uid u }
  (st', findOneProfile st'.profile uid)

/-- Embedding of `get_profile` (main.py lines 143-153) with an available
store: return the stored document, or synthesize the default pydantic
`Profile` with name `"Pengguna"` and email `user_id ++ "@example.com"`,
persist it through the gateway insert, and re-read. -/
def get_profile (st : Store) (uid : String) : Store × Option ProfileDoc :=
  match findOneProfile st.profile uid with
  | some d => (st, some d)
  | none =>
    let st' := { st with
      profile := create_document st.profile (profileModel uid "Pengguna" (uid ++ "@example.com")) }
    (st', findOneProfile st'.profile uid)

/-! ### Accessibility upsert (main.py lines 194-210) -/

/-- Request body of `POST /api/accessibility/\x7buser_id\x7d` (main.py
`AccessibilityUpdate`, lines 194-198): four optional fields with no
range constraints. -/
structure AccessibilityUpdatePayload where
  dark_mode : Option Bool := none
  high_contrast : Option Bool := none
  font_scale : Option Rat := none
  reduce_motion : Option Bool := none
deriving DecidableEq

/-- Application of the `$set` document built in main.py lines 205-207:
`model_dump(exclude_none=True)` puts exactly the non-None payload fields
into `$set`, which overwrites those fields and leaves the rest
untouched. -/
def applyAccessibilitySet (d : AccessibilityDoc) (p : AccessibilityUpdatePayload) : AccessibilityDoc where
  user_id := d.user_id
  dark_mode := match p.dark_mode with | some v => some v | none => d.dark_mode
  high_contrast := match p.high_contrast with | some v => some v | none => d.high_contrast
  font_scale := match p.font_scale with | some v => some v | none => d.font_scale
  reduce_motion := match p.reduce_motion with | some v => some v | none => d.reduce_motion

/-- Filter-derived document a MongoDB upsert starts from on the
accessibility collection. -/
def emptyAccessibilityDoc (uid : String) : AccessibilityDoc where
  user_id := uid
  dark_mode := none
  high_contrast := none
  font_scale := none
  reduce_motion := none

/-- MongoDB `update_one(\x7b"user_id": uid\x7d, \x7b"$set": ...\x7d,
upsert=True)` on the accessibility collection. -/
def updateOneAccessibility : List AccessibilityDoc → String → AccessibilityUpdatePayload → List AccessibilityDoc
  | [], uid, p => [applyAccessibilitySet (emptyAccessibilityDoc uid) p]
  | d :: rest, uid, p =>
    if d.user_id == uid then applyAccessibilitySet d p :: rest
    else d :: updateOneAccessibility rest uid p

/-- Embedding of `update_accessibility` (main.py lines 201-210) with an
available store: upsert the `$set` document, then re-read and return the
document for `user_id`. -/
def update_accessibility (st : Store) (uid : String) (p : AccessibilityUpdatePayload) :
    Store × Option AccessibilityDoc :=
  let st' := { st with accessibility := updateOneAccessibility st.accessibility uid p }
  (st', findOneAccessibility st'.accessibility uid)

/-! ### Seed routine (main.py lines 214-269) -/

/-- The three hardcoded sample gestures of main.py lines 221-241
(pydantic fills `tags` with its empty-list default). -/
def sampleGestures : List GestureDoc :=
  [ { name := "A", slug := "letter-a", category := "letters", difficulty := "easy"
    , thumbnail := some "https://images.unsplash.com/photo-1520975916090-3105956dac38?w=400"
    , video_url := some "https://samplelib.com/lib/preview/mp4/sample-5s.mp4"
    , steps := ["Kepalkan tangan", "Letakkan ibu jari di samping"]
    , examples := ["A untuk 'Aku'"], tags := [] }
  , { name := "Halo", slug := "halo", category := "basic", difficulty := "easy"
    , thumbnail := some "https://images.unsplash.com/photo-1516873240891-4bf2b74d0a2a?w=400"
    , video_url := some "https://samplelib.com/lib/preview/mp4/sample-5s.mp4"
    , steps := ["Lambaikan tangan"], examples := ["Halo, apa kabar?"], tags := [] }
  , { name := "Terima kasih", slug := "terima-kasih", category := "basic", difficulty := "easy"
    , thumbnail := some "https://images.unsplash.com/photo-1520975916090-3105956dac38?w=400"
    , video_url := some "https://samplelib.com/lib/preview/mp4/sample-5s.mp4"
    , steps := ["Sentuh dagu, gerakkan ke depan"]
    , examples := ["Terima kasih atas bantuannya"], tags := [] } ]

/-- The single hardcoded sample module of main.py lines 246-254. -/
def sampleModules : List ModuleDoc :=
  [ { title := "Dasar Bahasa Isyarat", slug := "dasar-bahasa-isyarat"
    , description := some "Pelajari gestur dasar untuk memulai."
    , cover_image := some "https://images.unsplash.com/photo-1520975916090-3105956dac38?w=800"
    , subtopics := ["Salam", "Huruf", "Angka"]
    , gesture_slugs := ["halo", "terima-kasih", "letter-a"] } ]

/-- The single hardcoded sample quiz of main.py lines 259-266. -/
def sampleQuiz : QuizDoc :=
  { title := "Kuis Dasar", slug := "kuis-dasar"
  , questions :=
      [ { prompt := "Gestur untuk 'Halo' adalah...", media_url := none
        , options := ["A", "Lambaian tangan", "Kepalan"], answer_index := 1 }
      , { prompt := "Bagaimana membuat huruf A?", media_url := none
        , options := ["Kepalkan tangan", "Luruskan jari"], answer_index := 0 } ]
  , related_module_slug := some "dasar-bahasa-isyarat" }

/-- Embedding of `seed_data` (main.py lines 214-269) with an available
store: for each catalog collection in turn, insert the hardcoded samples
through the gateway insert exactly when the collection counts zero
documents. -/
def seed_data (st : Store) : Store :=
  let st1 := if st.gesture.length = 0 then
    { st with gesture := sampleGestures.foldl create_document st.gesture } else st
  let st2 := if st1.module.length = 0 then
    { st1 with module := sampleModules.foldl create_document st1.module } else st1
  let st3 := if st2.quiz.length = 0 then
    { st2 with quiz := create_document st2.quiz sampleQuiz } else st2
  st3

/-! ### General lemmas about find-one after update-one -/

theorem applyProfileUpdate_user_id (d : ProfileDoc) (u : ProfileUpdateDoc) :
    (applyProfileUpdate d u).user_id = d.user_id := rfl

theorem applyAccessibilitySet_user_id (d : AccessibilityDoc) (p : AccessibilityUpdatePayload) :
    (applyAccessibilitySet d p).user_id = d.user_id := rfl

/-- Re-reading by `user_id` right after an upsert always finds a
document: the update applied to the first match, or to the
filter-derived empty document when there was no match. -/
theorem findOne_updateOneProfile (l : List ProfileDoc) (uid : String) (u : ProfileUpdateDoc) :
    findOneProfile (updateOneProfile l uid u) uid =
      some (applyProfileUpdate ((findOneProfile l uid).getD (emptyProfileDoc uid)) u) := by
  induction l with
  | nil =>
    simp only [updateOneProfile, findOneProfile]
    rw [applyProfileUpdate_user_id]
    simp [emptyProfileDoc]
  | cons d rest ih =>
    by_cases h : d.user_id = uid
    · simp only [updateOneProfile, findOneProfile, h, beq_self_eq_true, if_true]
      rw [applyProfileUpdate_user_id, h]
      simp
    · have hb : (d.user_id == uid) = false := by simp [h]
      simp only [updateOneProfile, findOneProfile, hb, if_false]
      exact ih

/-- Accessibility analogue of `findOne_updateOneProfile`. -/
theorem findOne_updateOneAccessibility (l : List AccessibilityDoc) (uid : String)
    (p : AccessibilityUpdatePayload) :
    findOneAccessibility (updateOneAccessibility l uid p) uid =
      some (applyAccessibilitySet ((findOneAccessibility l uid).getD (emptyAccessibilityDoc uid)) p) := by
  induction l with
  | nil =>
    simp only [updateOneAccessibility, findOneAccessibility]
    rw [applyAccessibilitySet_user_id]
    simp [emptyAccessibilityDoc]
  | cons d rest ih =>
    by_cases h : d.user_id = uid
    · simp only [updateOneAccessibility, findOneAccessibility, h, beq_self_eq_true, if_true]
      rw [applyAccessibilitySet_user_id, h]
      simp
    · have hb : (d.user_id == uid) = false := by simp [h]
      simp only [updateOneAccessibility, findOneAccessibility, hb, if_false]
      exact ih

/-- A store with every collection empty. -/
def emptyStore : Store := ⟨[], [], [], [], []⟩

/-- A store whose accessibility collection holds the all-default document
for user "u1" (as the lazy read would create it). -/
def accStore1 : Store := ⟨[], [], [], [], [accessibilityModel "u1"]⟩

/-- C1: the claim says a `POST /api/accessibility/\x7buser_id\x7d` body with
`font_scale` outside [0.85, 1.6] is rejected at the validation layer.  The
code's `AccessibilityUpdate` model declares no bound, so `font_scale = 2`
passes validation and is written to the store, violating the range the
`Accessibility` schema itself declares; an in-range `1.2` is also accepted.
This evaluates the code at the failing input. -/
theorem accessibility_font_scale_not_validated :
    accessibilityUpdateFontScaleOk 2 = true ∧
    (update_accessibility accStore1 "u1"
        { font_scale := some 2 }).2.bind (fun d => d.font_scale) = some 2 ∧
    accessibilityFontScaleInRange 2 = false ∧
    (update_accessibility accStore1 "u1"
        { font_scale := some (12/10) }).2.bind (fun d => d.font_scale) = some (12/10) ∧
    accessibilityFontScaleInRange (12/10) = true := by
  refine ⟨rfl, by decide, ?_, rfl, ?_⟩
  · simp only [accessibilityFontScaleInRange]
    norm_num
  · simp only [accessibilityFontScaleInRange]
    norm_num

/-- C2 counterexample: a `POST /api/profile/u1` on a store with no profile
document creates, via the MongoDB upsert, a document holding only the
filter key, the `$set` fields and nothing else — `email` is absent and
`points`/`level`/`streak_days` and the two lists are absent rather than
defaulted, contradicting the claim that schema defaults are applied. -/
theorem profile_upsert_no_defaults_cex :
    (update_profile emptyStore "u1" { name := some "Alice" } true 5).2 =
      some { user_id := "u1", name := some "Alice", email := none, avatar_url := none
           , points := none, level := none, streak_days := none
           , favorite_gesture_slugs := none, completed_module_slugs := none
           , updated_at := some (some 5) } ∧
    (update_profile emptyStore "u1" { name := some "Alice" } true 5).2.bind
        (fun d => d.email) ≠ some "u1@example.com" ∧
    (update_profile emptyStore "u1" { name := some "Alice" } true 5).2.bind
        (fun d => d.points) ≠ some 0 ∧
    (update_profile emptyStore "u1" { name := some "Alice" } true 5).2.bind
        (fun d => d.favorite_gesture_slugs) ≠ some [] := by decide

/-- C2 amended: when no profile document exists for `user_id`, the upsert
creates a document holding exactly the filter's `user_id`, an
`updated_at` field, the supplied `name`/`avatar_url`, and one-element
lists for a non-empty favorite slug (when `remove_favorite` is false)
and a non-empty completed slug; the schema defaults (`email`, `points`,
`level`, `streak_days`, the empty lists) are not applied and those
fields are absent. -/
theorem update_profile_upsert_minimal_doc (st : Store) (uid : String)
    (p : ProfileUpdatePayload) (ht : Bool) (e : Rat)
    (h : findOneProfile st.profile uid = none) :
    (update_profile st uid p ht e).2 =
      some { user_id := uid
           , name := p.name, email := none, avatar_url := p.avatar_url
           , points := none, level := none, streak_days := none
           , favorite_gesture_slugs :=
               match p.favorite_gesture_slug with
               | none => none
               | some s => if s = "" then none else if p.remove_favorite then none else some [s]
           , completed_module_slugs :=
               match p.completed_module_slug with
               | none => none
               | some s => if s = "" then none else some [s]
           , updated_at := some (osTimesVal ht e) } := by
  simp only [update_profile, findOne_updateOneProfile, h, Option.getD]
  rcases p with ⟨n, a, fav, rm, comp⟩
  rcases fav with _ | s <;> rcases comp with _ | t <;> rcases rm <;>
    simp only [applyProfileUpdate, buildProfileUpdate, emptyProfileDoc, truthyStr,
      mongoAddToSet, mongoPull, Bool.and_true, Bool.and_false, Bool.not_true, Bool.not_false,
      if_false, if_true, Option.some.injEq, ProfileDoc.mk.injEq, and_true, true_and]
  all_goals
    cases n <;> cases a <;> (try simp) <;>
      (try (by_cases hs : s = "" <;> simp [hs])) <;>
      (try (by_cases ht2 : t = "" <;> simp [ht2]))

/-- C2 witness for `update_profile_upsert_minimal_doc` at a concrete
input: the empty store has no document for "u9", and the upserted
document for a payload adding favorite "halo" is the minimal one. -/
theorem update_profile_upsert_minimal_doc_witness :
    (update_profile emptyStore "u9"
        { name := some "Bob", favorite_gesture_slug := some "halo" } true 3).2 =
      some { user_id := "u9"
           , name := some "Bob", email := none, avatar_url := none
           , points := none, level := none, streak_days := none
           , favorite_gesture_slugs := some ["halo"], completed_module_slugs := none
           , updated_at := some (some 3) } :=
  update_profile_upsert_minimal_doc emptyStore "u9"
    { name := some "Bob", favorite_gesture_slug := some "halo" } true 3 rfl

/-- C3 counterexample: after a `POST /api/profile/u1` the stored
`updated_at` is `some 7` (the `os.times().elapsed` value of the runtime,
which exists on every supported platform) — present and non-null, so the
claim that it is always unset/null is false. -/
theorem profile_updated_at_not_null_cex :
    (update_profile emptyStore "u1" {} true 7).2.bind (fun d => d.updated_at) =
      some (some 7) ∧
    (some (some (7:Rat)) : Option (Option Rat)) ≠ some none ∧
    (some (some (7:Rat)) : Option (Option Rat)) ≠ none := by decide

/-- C3 amended: every `POST /api/profile/\x7buser_id\x7d` sets
`updated_at` to the value of `os.times().elapsed` — an elapsed-time
reading, not a calendar timestamp — and the stored value is null only in
the hypothetical runtime where `os.times` is absent (`hasattr(os,
'times')` is `True` on every platform CPython supports). -/
theorem update_profile_sets_updated_at (st : Store) (uid : String)
    (p : ProfileUpdatePayload) (ht : Bool) (e : Rat) :
    (update_profile st uid p ht e).2.bind (fun d => d.updated_at) =
      some (osTimesVal ht e) := by
  simp only [update_profile, findOne_updateOneProfile, Option.some_bind]
  rfl

/-- Appending a document whose key matches is found by a lookup that
previously found nothing. -/
theorem findOneProfile_append_of_none (l : List ProfileDoc) (uid : String) (d : ProfileDoc)
    (h : findOneProfile l uid = none) (hd : d.user_id = uid) :
    findOneProfile (l ++ [d]) uid = some d := by
  induction l with
  | nil => simp [findOneProfile, hd]
  | cons c rest ih =>
    cases hb : (c.user_id == uid) with
    | true => simp [findOneProfile, hb] at h
    | false =>
      simp only [findOneProfile, hb, if_false, List.cons_append] at h ⊢
      exact ih h

/-- C4: for a `user_id` with no stored profile, `GET
/api/profile/\x7buser_id\x7d` synthesizes the default pydantic Profile —
placeholder name "Pengguna" and email derived as `user_id ++
"@example.com"`, with all schema defaults — persists it into the profile
collection, and returns that persisted document. -/
theorem get_profile_lazy_create (st : Store) (uid : String)
    (h : findOneProfile st.profile uid = none) :
    (get_profile st uid).1.profile =
      st.profile ++ [profileModel uid "Pengguna" (uid ++ "@example.com")] ∧
    (get_profile st uid).2 = some (profileModel uid "Pengguna" (uid ++ "@example.com")) := by
  have h2 := findOneProfile_append_of_none st.profile uid
    (profileModel uid "Pengguna" (uid ++ "@example.com")) h rfl
  simp only [get_profile, h, create_document]
  exact ⟨trivial, h2⟩

/-- C4 witness: concrete run of `get_profile` on the empty store. -/
theorem get_profile_lazy_create_witness :
    (get_profile emptyStore "u7").1.profile = [profileModel "u7" "Pengguna" "u7@example.com"] ∧
    (get_profile emptyStore "u7").2 = some (profileModel "u7" "Pengguna" "u7@example.com") :=
  ⟨((get_profile_lazy_create emptyStore "u7" rfl).1).trans (by decide),
   ((get_profile_lazy_create emptyStore "u7" rfl).2).trans (by decide)⟩

/-- C5: for page ≥ 1 and limit ≥ 1, `GET /api/gestures` returns at most
`limit` items, and `total` is the number of documents matching the
filter — an expression that does not involve the pagination parameters
at all. -/
theorem list_gestures_page_bounds (st : Store) (q c d : Option String)
    (page limit : Int) (_hp : 1 ≤ page) (hl : 1 ≤ limit) :
    ((list_gestures st q c d page limit).items.length : Int) ≤ limit ∧
    (list_gestures st q c d page limit).total =
      (st.gesture.filter (gestureFilter q c d)).length := by
  refine ⟨?_, rfl⟩
  have h1 : (list_gestures st q c d page limit).items.length ≤ limit.toNat := by
    simp only [list_gestures, List.length_take]
    exact Nat.min_le_left _ _
  omega

/-- C5 witness: a two-gesture store paged with limit 1. -/
theorem list_gestures_page_bounds_witness :
    ((list_gestures ⟨sampleGestures, [], [], [], []⟩ none none none 1 1).items.length : Int) ≤ 1 ∧
    (list_gestures ⟨sampleGestures, [], [], [], []⟩ none none none 1 1).total =
      ((⟨sampleGestures, [], [], [], []⟩ : Store).gesture.filter
        (gestureFilter none none none)).length :=
  list_gestures_page_bounds ⟨sampleGestures, [], [], [], []⟩ none none none 1 1
    (by decide) (by decide)

/-! ### The spec's reading of the text filter: case-insensitive substring -/

/-- Case-insensitive comparison of two characters (ASCII case folding). -/
def ciCharMatches (p c : Char) : Bool := p.toLower == c.toLower

/-- Case-insensitive prefix test on character lists. -/
def ciPrefixMatches : List Char → List Char → Bool
  | [], _ => true
  | _ :: _, [] => false
  | p :: ps, c :: cs => ciCharMatches p c && ciPrefixMatches ps cs

/-- Case-insensitive substring scan on character lists. -/
def ciSearch (pat : List Char) : List Char → Bool
  | [] => ciPrefixMatches pat []
  | c :: cs => ciPrefixMatches pat (c :: cs) || ciSearch pat cs

/-- Modelled from the spec: the wording says the text filter is a
"case-insensitive substring match against `name` OR any value in
`tags`"; this is that substring semantics, to be compared against the
regex semantics the source actually requests. -/
def specSubstrCI (q s : String) : Bool := ciSearch q.toList s.toList

theorem rexPrefixMatches_eq_ciPrefixMatches (pat : List Char) (hdot : '.' ∉ pat) :
    ∀ s, rexPrefixMatches pat s = ciPrefixMatches pat s := by
  induction pat with
  | nil => intro s; rfl
  | cons p ps ih =>
    intro s
    have hp : p ≠ '.' := fun hp => hdot (hp ▸ List.mem_cons_self p ps)
    have hps : '.' ∉ ps := fun hm => hdot (List.mem_cons_of_mem p hm)
    cases s with
    | nil => rfl
    | cons c cs =>
      have hchar : rexCharMatches p c = ciCharMatches p c := by
        simp [rexCharMatches, ciCharMatches, hp]
      simp [rexPrefixMatches, ciPrefixMatches, hchar, ih hps]

theorem rexSearch_eq_ciSearch (pat : List Char) (hdot : '.' ∉ pat) :
    ∀ s, rexSearch pat s = ciSearch pat s := by
  intro s
  induction s with
  | nil => simp [rexSearch, ciSearch, rexPrefixMatches_eq_ciPrefixMatches pat hdot]
  | cons c cs ih => simp [rexSearch, ciSearch, rexPrefixMatches_eq_ciPrefixMatches pat hdot, ih]

/-- Characters that PCRE treats literally (the regular-expression
fragment the development trusts its engine on). -/
def plainChar (c : Char) : Bool := c.isAlphanum || c == ' ' || c == '-'

theorem no_dot_of_plain (l : List Char) (h : l.all plainChar = true) : '.' ∉ l := by
  intro hmem
  have := List.all_eq_true.mp h _ hmem
  exact absurd this (by decide)

theorem rexPrefixMatches_congr {p1 p2 : List Char}
    (h : List.Forall₂ (fun a b => ∀ c, rexCharMatches a c = rexCharMatches b c) p1 p2) :
    ∀ s, rexPrefixMatches p1 s = rexPrefixMatches p2 s := by
  induction h with
  | nil => intro s; rfl
  | cons hab _ ih =>
    intro s
    cases s with
    | nil => rfl
    | cons c cs => simp [rexPrefixMatches, hab c, ih cs]

theorem rexSearch_congr {p1 p2 : List Char}
    (h : List.Forall₂ (fun a b => ∀ c, rexCharMatches a c = rexCharMatches b c) p1 p2) :
    ∀ s, rexSearch p1 s = rexSearch p2 s := by
  intro s
  induction s with
  | nil => simp [rexSearch, rexPrefixMatches_congr h]
  | cons c cs ih => simp [rexSearch, rexPrefixMatches_congr h, ih]

theorem rexCharMatches_case (a b : Char) (h1 : (a == '.') = (b == '.'))
    (h2 : a.toLower = b.toLower) : ∀ c, rexCharMatches a c = rexCharMatches b c := by
  intro c
  simp [rexCharMatches, h1, h2]

/-- A gesture document used for the search counterexample. -/
def haloGesture : GestureDoc :=
  { name := "Halo", slug := "halo", category := "basic", difficulty := "easy"
  , thumbnail := none, video_url := none, steps := [], examples := [], tags := [] }

/-- A store holding only `haloGesture`. -/
def haloStore : Store := ⟨[haloGesture], [], [], [], []⟩

/-- C6 counterexample: the query `q = "."` is passed to the store as a
regular expression, so it matches the gesture named "Halo" even though
"." is not a substring of the name (case-insensitively or otherwise) and
the gesture has no tags — the filter is not substring matching for every
non-empty `q`. -/
theorem gesture_search_not_substring_cex :
    (list_gestures haloStore (some ".") none none 1 24).items = [haloGesture] ∧
    specSubstrCI "." haloGesture.name = false ∧
    haloGesture.tags = [] := by decide

/-- C6 amended: the text filter hands `q` to the store as a
case-insensitive unanchored regular expression, not a literal.  For a
non-empty `q` built from regex-literal characters (alphanumeric, space,
hyphen) it coincides with case-insensitive substring matching against
`name` or some tag; queries "HALO" and "halo" always return the same
result; and an absent `q` applies no text filter. -/
theorem list_gestures_text_filter (q : String) (hq : q ≠ "")
    (hsafe : q.toList.all plainChar = true) :
    (∀ g : GestureDoc, qMatches (some q) g =
        (specSubstrCI q g.name || g.tags.any (fun t => specSubstrCI q t))) ∧
    (∀ st c d page limit, list_gestures st (some "HALO") c d page limit =
        list_gestures st (some "halo") c d page limit) ∧
    (∀ g : GestureDoc, qMatches none g = true) := by
  have hdot : '.' ∉ q.toList := no_dot_of_plain _ hsafe
  refine ⟨?_, ?_, fun g => rfl⟩
  · intro g
    have h3 : ∀ s : List Char, rexSearch q.data s = ciSearch q.data s :=
      rexSearch_eq_ciSearch q.toList hdot
    simp [qMatches, hq, regexSearchI, specSubstrCI, h3]
  · have hHh : List.Forall₂ (fun a b => ∀ c, rexCharMatches a c = rexCharMatches b c)
        "HALO".toList "halo".toList := by
      show List.Forall₂ _ ['H', 'A', 'L', 'O'] ['h', 'a', 'l', 'o']
      exact .cons (rexCharMatches_case _ _ (by decide) (by decide))
        (.cons (rexCharMatches_case _ _ (by decide) (by decide))
          (.cons (rexCharMatches_case _ _ (by decide) (by decide))
            (.cons (rexCharMatches_case _ _ (by decide) (by decide)) .nil)))
    have hqm : ∀ g : GestureDoc, qMatches (some "HALO") g = qMatches (some "halo") g := by
      intro g
      have h1 : ¬ (("HALO" : String) = "") := by decide
      have h2 : ¬ (("halo" : String) = "") := by decide
      simp only [qMatches, h1, h2, if_false, regexSearchI, rexSearch_congr hHh]
    intro st c d page limit
    have hf : st.gesture.filter (gestureFilter (some "HALO") c d) =
        st.gesture.filter (gestureFilter (some "halo") c d) :=
      List.filter_congr (fun g _ => by simp [gestureFilter, hqm g])
    simp [list_gestures, hf]

/-- C6 witness for `list_gestures_text_filter` at the literal query
"halo" and concrete documents. -/
theorem list_gestures_text_filter_witness :
    qMatches (some "halo") haloGesture =
      (specSubstrCI "halo" haloGesture.name ||
        haloGesture.tags.any (fun t => specSubstrCI "halo" t)) ∧
    list_gestures haloStore (some "HALO") none none 1 24 =
      list_gestures haloStore (some "halo") none none 1 24 ∧
    qMatches none haloGesture = true :=
  ⟨(list_gestures_text_filter "halo" (by decide) (by decide)).1 haloGesture,
   (list_gestures_text_filter "halo" (by decide) (by decide)).2.1 haloStore none none 1 24,
   (list_gestures_text_filter "halo" (by decide) (by decide)).2.2 haloGesture⟩

/-! ### Favorites: duplicate-free addition -/

/-- Number of occurrences of slug `s` in the stored favorites list of
`user_id` (zero when the document or the field is absent). -/
def favCount (st : Store) (uid s : String) : Nat :=
  (((findOneProfile st.profile uid).bind (fun d => d.favorite_gesture_slugs)).getD []).count s

theorem count_mongoAddToSet (fld : Option (List String)) (s : String)
    (h : (fld.getD []).count s ≤ 1) :
    ((mongoAddToSet fld (some s)).getD []).count s = 1 := by
  cases fld with
  | none => simp [mongoAddToSet]
  | some l =>
    simp only [mongoAddToSet, Option.getD] at h ⊢
    by_cases hm : s ∈ l
    · have hpos : 0 < l.count s := List.count_pos_iff.mpr hm
      simp only [hm, if_true, Option.getD]
      omega
    · have hz : l.count s = 0 := List.count_eq_zero.mpr hm
      simp [hm, hz]

theorem favCount_after_add (st : Store) (uid s : String) (u : ProfileUpdateDoc)
    (hadd : u.add_favorite = some s) (hpull : u.pull_favorite = none)
    (hc : favCount st uid s ≤ 1) :
    favCount { st with profile := updateOneProfile st.profile uid u } uid s = 1 := by
  unfold favCount at hc ⊢
  rw [findOne_updateOneProfile]
  simp only [Option.some_bind]
  have hbase : ((((findOneProfile st.profile uid).getD
      (emptyProfileDoc uid)).favorite_gesture_slugs).getD []).count s ≤ 1 := by
    cases hf : findOneProfile st.profile uid with
    | some d => rw [hf] at hc; simpa using hc
    | none => simp [emptyProfileDoc]
  simp only [applyProfileUpdate, hadd, hpull, mongoPull]
  exact count_mongoAddToSet _ _ hbase

/-- C7: posting the same non-empty `favorite_gesture_slug` with
`remove_favorite = false` twice leaves the slug in the favorites list
exactly once, provided the prior state lists it at most once (the
invariant every API-reachable state satisfies, since the list is only
ever extended through `$addToSet`). -/
theorem update_profile_add_favorite_idem (st : Store) (uid s : String)
    (p : ProfileUpdatePayload) (ht1 ht2 : Bool) (e1 e2 : Rat)
    (hs : s ≠ "") (hfav : p.favorite_gesture_slug = some s)
    (hrm : p.remove_favorite = false) (hc : favCount st uid s ≤ 1) :
    favCount ((update_profile ((update_profile st uid p ht1 e1).1) uid p ht2 e2).1) uid s = 1 := by
  have hadd : ∀ t, (buildProfileUpdate p t).add_favorite = some s := by
    intro t; simp [buildProfileUpdate, hfav, hrm, truthyStr, hs]
  have hpull : ∀ t, (buildProfileUpdate p t).pull_favorite = none := by
    intro t; simp [buildProfileUpdate, hfav, hrm, truthyStr]
  have h1 : favCount (update_profile st uid p ht1 e1).1 uid s = 1 := by
    simp only [update_profile]
    exact favCount_after_add st uid s _ (hadd _) (hpull _) hc
  simp only [update_profile]
  exact favCount_after_add _ uid s _ (hadd _) (hpull _) (by rw [h1])

/-- C7 witness: adding favorite "halo" twice for a fresh user leaves one
occurrence. -/
theorem update_profile_add_favorite_idem_witness :
    favCount ((update_profile ((update_profile emptyStore "u1"
      { favorite_gesture_slug := some "halo" } true 1).1) "u1"
      { favorite_gesture_slug := some "halo" } true 2).1) "u1" "halo" = 1 :=
  update_profile_add_favorite_idem emptyStore "u1" "halo"
    { favorite_gesture_slug := some "halo" } true true 1 2
    (by decide) rfl rfl (by decide)

/-! ### Seed routine -/

theorem foldl_create_document {α : Type} (l gs : List α) :
    gs.foldl create_document l = l ++ gs := by
  induction gs generalizing l with
  | nil => simp
  | cons g gs ih => simp [create_document, ih]

/-- C8: `seed_data` inserts the hardcoded samples into a catalog
collection exactly when that collection holds zero documents, and a
second run is the identity — no catalog entry is duplicated or
overwritten, so all counts match those after the first run. -/
theorem seed_data_iff_empty_idem (st : Store) :
    ((seed_data st).gesture = if st.gesture.length = 0 then sampleGestures else st.gesture) ∧
    ((seed_data st).module = if st.module.length = 0 then sampleModules else st.module) ∧
    ((seed_data st).quiz = if st.quiz.length = 0 then [sampleQuiz] else st.quiz) ∧
    seed_data (seed_data st) = seed_data st := by
  rcases st with ⟨g, m, qz, pr, acc⟩
  have hsg : ¬ (sampleGestures.length = 0) := by decide
  have hsm : ¬ (sampleModules.length = 0) := by decide
  have hsq : ¬ (([sampleQuiz] : List QuizDoc).length = 0) := by decide
  cases g <;> cases m <;> cases qz <;>
    simp [seed_data, foldl_create_document, create_document, hsg, hsm, hsq]

/-! ### Accessibility frame property and empty-slug no-ops -/

/-- C9: when an accessibility document already exists for `user_id`,
`POST /api/accessibility/\x7buser_id\x7d` overwrites exactly the fields
the body supplies (the non-None ones among dark_mode, high_contrast,
font_scale, reduce_motion) and every absent field keeps its prior value;
`user_id` is untouched. -/
theorem update_accessibility_frame (st : Store) (uid : String)
    (p : AccessibilityUpdatePayload) (d : AccessibilityDoc)
    (h : findOneAccessibility st.accessibility uid = some d) :
    (update_accessibility st uid p).2 =
      some { user_id := d.user_id
           , dark_mode := match p.dark_mode with | some v => some v | none => d.dark_mode
           , high_contrast := match p.high_contrast with | some v => some v | none => d.high_contrast
           , font_scale := match p.font_scale with | some v => some v | none => d.font_scale
           , reduce_motion := match p.reduce_motion with | some v => some v | none => d.reduce_motion } := by
  simp only [update_accessibility, findOne_updateOneAccessibility, h, Option.getD]
  rfl

/-- C9 witness: setting only `dark_mode` on the default document keeps
the other three fields at their prior values. -/
theorem update_accessibility_frame_witness :
    (update_accessibility accStore1 "u1" { dark_mode := some true }).2 =
      some { user_id := "u1", dark_mode := some true, high_contrast := some false
           , font_scale := some 1, reduce_motion := some false } :=
  (update_accessibility_frame accStore1 "u1" { dark_mode := some true }
    (accessibilityModel "u1") rfl).trans (by decide)

/-- Favorites list field of the stored profile of `user_id` (absent
document or absent field read as `none`). -/
def favoriteField (st : Store) (uid : String) : Option (List String) :=
  (findOneProfile st.profile uid).bind (fun d => d.favorite_gesture_slugs)

/-- Completed-modules list field of the stored profile of `user_id`. -/
def completedField (st : Store) (uid : String) : Option (List String) :=
  (findOneProfile st.profile uid).bind (fun d => d.completed_module_slugs)

/-- C10: the profile-update guards test Python truthiness, not presence,
so an empty-string `favorite_gesture_slug` changes nothing in
`favorite_gesture_slugs` whatever `remove_favorite` is, and an
empty-string `completed_module_slug` changes nothing in
`completed_module_slugs`. -/
theorem update_profile_empty_slug_noop (st : Store) (uid : String)
    (p : ProfileUpdatePayload) (ht : Bool) (e : Rat) :
    (p.favorite_gesture_slug = some "" →
      favoriteField (update_profile st uid p ht e).1 uid = favoriteField st uid) ∧
    (p.completed_module_slug = some "" →
      completedField (update_profile st uid p ht e).1 uid = completedField st uid) := by
  constructor
  · intro hf
    have hadd : (buildProfileUpdate p (osTimesVal ht e)).add_favorite = none := by
      simp [buildProfileUpdate, hf, truthyStr]
    have hpull : (buildProfileUpdate p (osTimesVal ht e)).pull_favorite = none := by
      simp [buildProfileUpdate, hf, truthyStr]
    simp only [favoriteField, update_profile, findOne_updateOneProfile, Option.some_bind]
    cases hfind : findOneProfile st.profile uid with
    | none => simp [applyProfileUpdate, hadd, hpull, mongoAddToSet, mongoPull, emptyProfileDoc]
    | some d => simp [applyProfileUpdate, hadd, hpull, mongoAddToSet, mongoPull]
  · intro hc
    have hadd : (buildProfileUpdate p (osTimesVal ht e)).add_completed = none := by
      simp [buildProfileUpdate, hc, truthyStr]
    simp only [completedField, update_profile, findOne_updateOneProfile, Option.some_bind]
    cases hfind : findOneProfile st.profile uid with
    | none => simp [applyProfileUpdate, hadd, mongoAddToSet, emptyProfileDoc]
    | some d => simp [applyProfileUpdate, hadd, mongoAddToSet]

/-- Payload whose two slugs are empty strings, used as the C10 witness
input. -/
def emptySlugPayload : ProfileUpdatePayload :=
  { favorite_gesture_slug := some "", remove_favorite := true
  , completed_module_slug := some "" }

/-- C10 witness: both no-op conclusions at a concrete input. -/
theorem update_profile_empty_slug_noop_witness :
    favoriteField (update_profile emptyStore "u1" emptySlugPayload true 1).1 "u1" =
      favoriteField emptyStore "u1" ∧
    completedField (update_profile emptyStore "u1" emptySlugPayload true 1).1 "u1" =
      completedField emptyStore "u1" :=
  ⟨(update_profile_empty_slug_noop emptyStore "u1" emptySlugPayload true 1).1 rfl,
   (update_profile_empty_slug_noop emptyStore "u1" emptySlugPayload true 1).2 rfl⟩

end SignifyLearn
